import Mathlib

/-!
The CPU core of bagel-boy (`source/cpu.c`)

A shallow embedding of the fetch/execute timing loop `cpu_cycle` and of the
interrupt dispatch `cpu_handle_interrupts`, followed by the properties of the
core that the specification states about them.

Conventions of the embedding:

* C unsigned integers are natural numbers; every place where the C code
  truncates (an assignment to a `uint8_t`/`uint16_t` object, an argument
  converted to a 16-bit parameter) is an explicit `%`/`uint16`.
* `struct cpu` holds pointers to the bus and to the interrupt controller; the
  embedding stores the pointed-to values in the record, so that a function of
  the C code that mutates `*cpu`, `*cpu->bus` or `*cpu->interrupt_controller`
  is a function from `cpu` to `cpu`.
* The function-local `static` counter of `cpu_cycle` is program-wide state: it
  is passed to and returned by `cpu_cycle` next to the `cpu` record.
* The diagnostic `printf` of `cpu_cycle` writes to the host's standard output
  only (it sits on the completing path, after the effect); it reads no
  emulated state but the operand and is left out, and with it the `syntax`
  field of the descriptor. The `clock_cycles` argument is never read and is
  left out as well.
-/

set_option linter.dupNamespace false
set_option maxRecDepth 100000

namespace BagelBoy

/-! ## Machine integers -/

/-- Conversion of a C `int` value to `uint16_t` (reduction modulo `2^16`). -/
def uint16 (x : Int) : Nat := (x % 65536).toNat

/-! ## Collaborators declared in headers that are not part of `cpu.c` -/

/-- Modelled from the spec: `struct bus` of `bus.h`. The bus "exposes
byte-addressed read/write over the full address space"; it is embedded as one
byte cell per 16-bit address. -/
structure bus where
  memory : Nat → Nat

/-- Modelled from the spec: `bus_read` of `bus.h`,
`read(address: 16-bit) -> 8-bit`. The argument is converted to the 16-bit
parameter type, the result is a byte. -/
def bus_read (b : bus) (address : Int) : Nat :=
  b.memory (uint16 address) % 256

/-- Modelled from the spec: `bus_write` of `bus.h`,
`write(address: 16-bit, value: 8-bit)`. Both arguments are converted to the
parameter types; the addressed cell is replaced, every other cell is kept. -/
def bus_write (b : bus) (address : Int) (value : Nat) : bus :=
  { memory := fun a => if a = uint16 address then value % 256 else b.memory a }

/-- Modelled from the spec: `struct interrupt_controller` of
`interrupt_controller.h`, "two byte-wide registers — requested-interrupt flags
and enabled-interrupt mask". -/
structure interrupt_controller where
  interrupt_flags : Nat
  interrupt_enable : Nat

/-- Modelled from the spec: `struct cpu` of `cpu.h`. `registers` is the "fixed
set of 8-bit/16-bit general and flag registers", opaque to this core and
indexed by register number; `pc` and `sp` are 16-bit, `ime` and `halted` are
booleans; `interrupt_controller` and `bus` are the bound collaborators. -/
structure cpu where
  registers : Nat → Nat
  pc : Nat
  sp : Nat
  ime : Bool
  halted : Bool
  interrupt_controller : interrupt_controller
  bus : bus

/-- Modelled from the spec: `struct instruction` of `instructions.h`, the
descriptor of one opcode: `length` in bytes, `duration` in clock ticks, the
effect `instruction` (a C function `void (struct cpu*, uint16_t)`, which may
change the CPU record, the bus and the interrupt controller) and the flag
`update_pc`. -/
structure instruction where
  length : Nat
  duration : Nat
  instruction : cpu → Nat → cpu
  update_pc : Bool

/-- Modelled from the spec: macro `MAKE_SHORT(high, low)` of `utilities.h`,
"`(high << 8) | low`". -/
def MAKE_SHORT (high low : Nat) : Nat := (high <<< 8) ||| low

/-- Modelled from the spec: macro `HIGH_BYTE` of `utilities.h`, "the high
byte" of a 16-bit value. -/
def HIGH_BYTE (x : Nat) : Nat := (x >>> 8) &&& 0xFF

/-- Modelled from the spec: macro `LOW_BYTE` of `utilities.h`, "the low byte"
of a 16-bit value. -/
def LOW_BYTE (x : Nat) : Nat := x &&& 0xFF

/-- Modelled from the spec: `INTERRUPT_FLAG_V_BLANK`; "five flag bits are
significant, in fixed priority order", and `0b00011` is "video-blank and
display-status": video-blank is bit 0. -/
def INTERRUPT_FLAG_V_BLANK : Nat := 0x01

/-- Modelled from the spec: `INTERRUPT_FLAG_LCDC_STAT`, the second flag bit in
priority order (display-controller-status), bit 1. -/
def INTERRUPT_FLAG_LCDC_STAT : Nat := 0x02

/-- Modelled from the spec: `INTERRUPT_FLAG_TIMER`, the third flag bit in
priority order (timer-overflow), bit 2. -/
def INTERRUPT_FLAG_TIMER : Nat := 0x04

/-- Modelled from the spec: `INTERRUPT_FLAG_SERIAL`, the fourth flag bit in
priority order (serial-transfer), bit 3. -/
def INTERRUPT_FLAG_SERIAL : Nat := 0x08

/-- Modelled from the spec: `INTERRUPT_FLAG_JOYPAD`, the fifth flag bit in
priority order (input/joypad), bit 4. -/
def INTERRUPT_FLAG_JOYPAD : Nat := 0x10

/-- The five service-routine addresses `INTERRUPT_*_ADDRESS`. The header that
defines them is not part of `cpu.c` and the specification only calls them
"fixed"; they are parameters of the embedding (16-bit constants). -/
structure interrupt_addresses where
  INTERRUPT_V_BLANK_ADDRESS : Nat
  INTERRUPT_LCDC_STAT_ADDRESS : Nat
  INTERRUPT_TIMER_ADDRESS : Nat
  INTERRUPT_SERIAL_ADDRESS : Nat
  INTERRUPT_JOYPAD_ADDRESS : Nat

/-! ## The functions of `cpu.c` -/

/-- `cpu_initialize`: `memset` the record to zero, then bind the interrupt
controller and the bus. -/
def cpu_initialize (_c : cpu) (ic : interrupt_controller) (b : bus) : cpu :=
  { registers := fun _ => 0
    pc := 0
    sp := 0
    ime := false
    halted := false
    interrupt_controller := ic
    bus := b }

/-- `cpu_cycle`: one clock tick of fetch/execute. `instruction_set` is the
opcode table of `instruction_sets.h`; `current_instruction_clock_cycles` is the
value of the function's `static uint8_t` counter before the call, and the first
component of the result is its value after the call. -/
def cpu_cycle (instruction_set : Nat → instruction)
    (current_instruction_clock_cycles : Nat) (c : cpu) : Nat × cpu :=
  let instruction := instruction_set (bus_read c.bus c.pc)
  let current_instruction_clock_cycles := (current_instruction_clock_cycles + 1) % 256
  if current_instruction_clock_cycles ≥ instruction.duration then
    let operand : Nat :=
      match instruction.length with
      | 1 => 0
      | 2 => bus_read c.bus (c.pc + 1)
      | 3 => uint16 (MAKE_SHORT (bus_read c.bus (c.pc + 2)) (bus_read c.bus (c.pc + 1)))
      | _ => 0
    let c := instruction.instruction c operand
    let c := if instruction.update_pc then
        { c with pc := uint16 (c.pc + instruction.length) }
      else c
    (0, c)
  else
    (current_instruction_clock_cycles, c)

/-- `cpu_handle_interrupts`: one interrupt-dispatch check. -/
def cpu_handle_interrupts (A : interrupt_addresses) (c : cpu) : cpu :=
  if c.ime then
    let io_register_if := c.interrupt_controller.interrupt_flags
    let io_register_ie := c.interrupt_controller.interrupt_enable
    if io_register_if = 0 ∨ io_register_ie = 0 then
      c
    else
      let c := { c with bus := bus_write c.bus (c.sp - 1) (HIGH_BYTE c.pc) }
      let c := { c with bus := bus_write c.bus (c.sp - 2) (LOW_BYTE c.pc) }
      let c := { c with sp := uint16 (c.sp - 2) }
      let c := { c with ime := false }
      let c := if c.halted then { c with halted := false } else c
      let c :=
        if (io_register_if &&& io_register_ie) &&& INTERRUPT_FLAG_V_BLANK ≠ 0 then
          { c with pc := A.INTERRUPT_V_BLANK_ADDRESS }
        else if (io_register_if &&& io_register_ie) &&& INTERRUPT_FLAG_LCDC_STAT ≠ 0 then
          { c with pc := A.INTERRUPT_LCDC_STAT_ADDRESS }
        else if (io_register_if &&& io_register_ie) &&& INTERRUPT_FLAG_TIMER ≠ 0 then
          { c with pc := A.INTERRUPT_TIMER_ADDRESS }
        else if (io_register_if &&& io_register_ie) &&& INTERRUPT_FLAG_SERIAL ≠ 0 then
          { c with pc := A.INTERRUPT_SERIAL_ADDRESS }
        else if (io_register_if &&& io_register_ie) &&& INTERRUPT_FLAG_JOYPAD ≠ 0 then
          { c with pc := A.INTERRUPT_JOYPAD_ADDRESS }
        else c
      { c with interrupt_controller :=
          { c.interrupt_controller with interrupt_flags := 0x00 } }
  else
    c

/-- The state reached by `n` consecutive calls of `cpu_cycle` on one CPU, from
the pair of the static counter and the CPU record. -/
def cpu_cycles (instruction_set : Nat → instruction) : Nat → Nat × cpu → Nat × cpu
  | 0, s => s
  | n + 1, s => cpu_cycle instruction_set (cpu_cycles instruction_set n s).1
      (cpu_cycles instruction_set n s).2

/-- The operand `cpu_cycle` decodes on a completing tick: the `switch` on
`instruction->length` of `cpu.c:60-72`, read from the record and the bus as
they are before the effect runs. -/
def decoded_operand (i : instruction) (c : cpu) : Nat :=
  match i.length with
  | 1 => 0
  | 2 => bus_read c.bus (c.pc + 1)
  | 3 => uint16 (MAKE_SHORT (bus_read c.bus (c.pc + 2)) (bus_read c.bus (c.pc + 1)))
  | _ => 0

/-- The value of the static counter of `cpu_cycle` after a sequence of calls,
one per record of the list, in order, from the value `k`. The records are
arbitrary: between two calls the interrupt dispatch, a peripheral or a call on
another instance may have changed pc, the bus or anything else. A program run
starts from `k = 0`, the initialiser of the counter at `cpu.c:56`. -/
def counter_after (instruction_set : Nat → instruction) : List cpu → Nat → Nat
  | [], k => k
  | c :: cs, k => counter_after instruction_set cs (cpu_cycle instruction_set k c).1

/-! ## The specification's reading of the interrupt priority -/

/-- The ordered table of (flag bit, service address) pairs of the five
interrupt sources, highest priority first: V-blank, LCDC-stat, timer, serial,
joypad. -/
def interrupt_table (A : interrupt_addresses) : List (Nat × Nat) :=
  [ (INTERRUPT_FLAG_V_BLANK, A.INTERRUPT_V_BLANK_ADDRESS),
    (INTERRUPT_FLAG_LCDC_STAT, A.INTERRUPT_LCDC_STAT_ADDRESS),
    (INTERRUPT_FLAG_TIMER, A.INTERRUPT_TIMER_ADDRESS),
    (INTERRUPT_FLAG_SERIAL, A.INTERRUPT_SERIAL_ADDRESS),
    (INTERRUPT_FLAG_JOYPAD, A.INTERRUPT_JOYPAD_ADDRESS) ]

/-- A source, given by its flag bit, is requested and enabled: its bit is set
in both `interrupt_flags` and `interrupt_enable`. -/
def requested_and_enabled (ic : interrupt_controller) (flag : Nat) : Prop :=
  ic.interrupt_flags &&& flag ≠ 0 ∧ ic.interrupt_enable &&& flag ≠ 0

instance (ic : interrupt_controller) (flag : Nat) : Decidable (requested_and_enabled ic flag) := by
  unfold requested_and_enabled
  infer_instance

/-- The service address of the first source of an ordered table that is
requested and enabled, if there is one. -/
def first_requested_and_enabled (ic : interrupt_controller) : List (Nat × Nat) → Option Nat
  | [] => none
  | (flag, address) :: rest =>
    if requested_and_enabled ic flag then some address
    else first_requested_and_enabled ic rest

/-- Scan of an ordered table of (flag bit, service address) pairs over a
bitmask: the address of the first pair whose flag bit is set in the mask. -/
def scan_table (mask : Nat) : List (Nat × Nat) → Option Nat
  | [] => none
  | (flag, address) :: rest =>
    if mask &&& flag ≠ 0 then some address else scan_table mask rest

/-! ## Concrete machines, used to evaluate the embedding -/

/-- A set of five distinct service addresses. -/
def example_addresses : interrupt_addresses :=
  { INTERRUPT_V_BLANK_ADDRESS := 0x40
    INTERRUPT_LCDC_STAT_ADDRESS := 0x48
    INTERRUPT_TIMER_ADDRESS := 0x50
    INTERRUPT_SERIAL_ADDRESS := 0x58
    INTERRUPT_JOYPAD_ADDRESS := 0x60 }

/-- A descriptor of length 3 and duration 12 whose effect stores the operand
in `sp`. -/
def example_load_sp : instruction :=
  { length := 3
    duration := 12
    instruction := fun c operand => { c with sp := operand }
    update_pc := true }

/-- A descriptor of length 3 and duration 16 whose effect stores the operand
in `pc` and manages the program counter itself. -/
def example_jump : instruction :=
  { length := 3
    duration := 16
    instruction := fun c operand => { c with pc := operand }
    update_pc := false }

/-- A descriptor of length 2 and duration 8 whose effect stores the operand in
register 0. -/
def example_load_byte : instruction :=
  { length := 2
    duration := 8
    instruction := fun c operand =>
      { c with registers := fun r => if r = 0 then operand else c.registers r }
    update_pc := true }

/-- A descriptor of length 1 and duration 4 whose effect changes nothing. -/
def example_nop : instruction :=
  { length := 1
    duration := 4
    instruction := fun c _ => c
    update_pc := true }

/-- An opcode table with four kinds of descriptors. -/
def example_instruction_set : Nat → instruction := fun opcode =>
  if opcode = 0x31 then example_load_sp
  else if opcode = 0xC3 then example_jump
  else if opcode = 0x3E then example_load_byte
  else example_nop

/-- A bus holding the bytes `31 FE FF` at `0x1234`, `C3 50 01` at `0x2000`,
`3E 80` at `0x3000` and zero elsewhere. -/
def example_bus : bus :=
  { memory := fun a =>
      if a = 0x1234 then 0x31 else if a = 0x1235 then 0xFE else if a = 0x1236 then 0xFF
      else if a = 0x2000 then 0xC3 else if a = 0x2001 then 0x50 else if a = 0x2002 then 0x01
      else if a = 0x3000 then 0x3E else if a = 0x3001 then 0x80
      else 0 }

/-- A halted CPU at `pc = 0x1234`, `sp = 0x8000` with `ime` set and the given
interrupt registers. -/
def example_cpu (interrupt_flags interrupt_enable : Nat) : cpu :=
  { registers := fun _ => 0
    pc := 0x1234
    sp := 0x8000
    ime := true
    halted := true
    interrupt_controller :=
      { interrupt_flags := interrupt_flags, interrupt_enable := interrupt_enable }
    bus := example_bus }

/-! ## The program around the core -/

/-- `cpu_initialize` seen on the whole program state, the pair of the static
counter of `cpu_cycle` and the CPU record: the function writes through its
`cpu` pointer only, and a function-local static of `cpu_cycle` is not in its
scope, so the counter component is passed through. -/
def cpu_initialize_program (s : Nat × cpu) (ic : interrupt_controller) (b : bus) : Nat × cpu :=
  (s.1, cpu_initialize s.2 ic b)

/-- Modelled from the spec: one clock tick of the external scheduler, which
is not part of `cpu.c`: "scheduler ticks → CPU core reads current opcode ...
then the scheduler also ticks `handleInterrupts`", that is `cpu_cycle` followed
by `cpu_handle_interrupts`, once each. -/
def scheduler_tick (A : interrupt_addresses) (instruction_set : Nat → instruction)
    (s : Nat × cpu) : Nat × cpu :=
  match cpu_cycle instruction_set s.1 s.2 with
  | (current_instruction_clock_cycles, c) =>
    (current_instruction_clock_cycles, cpu_handle_interrupts A c)

/-- The state after `n` consecutive scheduler ticks. -/
def scheduler_ticks (A : interrupt_addresses) (instruction_set : Nat → instruction) :
    Nat → Nat × cpu → Nat × cpu
  | 0, s => s
  | n + 1, s => scheduler_tick A instruction_set (scheduler_ticks A instruction_set n s)

/-- Modelled from the spec: a peripheral, which is not part of `cpu.c`,
requesting an interrupt: `requestedFlags` is a "bitmask, one bit per interrupt
source, set by peripherals". -/
def request_interrupt (flag : Nat) (c : cpu) : cpu :=
  { c with interrupt_controller :=
      { c.interrupt_controller with
        interrupt_flags := c.interrupt_controller.interrupt_flags ||| flag } }

/-- A descriptor of length 1 and duration 4 whose effect sets `ime`. -/
def example_enable_interrupts : instruction :=
  { length := 1
    duration := 4
    instruction := fun c _ => { c with ime := true }
    update_pc := true }

/-- The example opcode table extended with opcode `0xFB`, which sets `ime`. -/
def example_instruction_set_ei : Nat → instruction := fun opcode =>
  if opcode = 0xFB then example_enable_interrupts else example_instruction_set opcode

/-- A bus holding `FB` at `0x0000`, `31 FE FF` at `0x0001`, `3E 80` at `0x0040`
and zero elsewhere. -/
def example_boot_bus : bus :=
  { memory := fun a =>
      if a = 0x0000 then 0xFB
      else if a = 0x0001 then 0x31 else if a = 0x0002 then 0xFE else if a = 0x0003 then 0xFF
      else if a = 0x0040 then 0x3E else if a = 0x0041 then 0x80
      else 0 }

/-- The program state at power-on: static counter 0 and a CPU zeroed by
`cpu_initialize`, bound to `example_boot_bus` and to an interrupt controller
with nothing requested and V-blank enabled. -/
def example_power_on : Nat × cpu :=
  (0, cpu_initialize (example_cpu 0 0)
    { interrupt_flags := 0x00, interrupt_enable := 0x01 } example_boot_bus)

/-- The run from power-on after 14 scheduler ticks: the opcode `0xFB` has
completed and the 12-tick opcode at `0x0001` is in flight. -/
def example_in_flight : Nat × cpu :=
  scheduler_ticks example_addresses example_instruction_set_ei 14 example_power_on

/-- The run continued: a peripheral requests V-blank, then one more scheduler
tick. -/
def example_dispatched : Nat × cpu :=
  scheduler_tick example_addresses example_instruction_set_ei
    (example_in_flight.1, request_interrupt INTERRUPT_FLAG_V_BLANK example_in_flight.2)

/-! ## Auxiliary facts about the machine integers and the bus -/

theorem uint16_add (a b : Nat) : uint16 ((a : Int) + (b : Int)) = (a + b) % 65536 := by
  unfold uint16
  omega

theorem uint16_sub (a b : Nat) (h : b ≤ 65536) :
    uint16 ((a : Int) - (b : Int)) = (a + (65536 - b)) % 65536 := by
  unfold uint16
  omega

theorem uint16_natCast (a : Nat) : uint16 (a : Int) = a % 65536 := by
  unfold uint16
  omega

theorem bus_read_lt (b : bus) (address : Int) : bus_read b address < 256 := by
  unfold bus_read
  exact Nat.mod_lt _ (by decide)

theorem MAKE_SHORT_lt (high low : Nat) (hh : high < 256) (hl : low < 256) :
    MAKE_SHORT high low < 65536 := by
  unfold MAKE_SHORT
  have h1 : high <<< 8 < 2 ^ 16 := by
    rw [Nat.shiftLeft_eq]
    omega
  have h2 : low < 2 ^ 16 := by omega
  exact Nat.or_lt_two_pow h1 h2

/-! ## The two paths of `cpu_cycle` -/

theorem cpu_cycle_in_flight (instruction_set : Nat → instruction) (k : Nat) (c : cpu)
    (h : (k + 1) % 256 < (instruction_set (bus_read c.bus c.pc)).duration) :
    cpu_cycle instruction_set k c = ((k + 1) % 256, c) := by
  simp only [cpu_cycle, ge_iff_le]
  rw [if_neg (by omega)]

theorem cpu_cycles_succ (instruction_set : Nat → instruction) (n : Nat) (s : Nat × cpu) :
    cpu_cycles instruction_set (n + 1) s =
      cpu_cycle instruction_set (cpu_cycles instruction_set n s).1
        (cpu_cycles instruction_set n s).2 := rfl

theorem cpu_cycles_in_flight (instruction_set : Nat → instruction) (c : cpu) (d : Nat)
    (hd : d ≤ 255) (hdur : (instruction_set (bus_read c.bus c.pc)).duration = d) :
    ∀ k, k < d → cpu_cycles instruction_set k (0, c) = (k, c) := by
  intro k
  induction k with
  | zero => intro _; rfl
  | succ n ih =>
    intro hn
    rw [cpu_cycles_succ, ih (by omega)]
    have hmod : (n + 1) % 256 = n + 1 := Nat.mod_eq_of_lt (by omega)
    rw [cpu_cycle_in_flight instruction_set n c (by rw [hdur, hmod]; exact hn), hmod]

theorem cpu_cycle_complete (instruction_set : Nat → instruction) (k : Nat) (c : cpu)
    (i : instruction) (hi : instruction_set (bus_read c.bus c.pc) = i)
    (h : i.duration ≤ (k + 1) % 256) (operand : Nat)
    (hop : operand = match i.length with
      | 1 => 0
      | 2 => bus_read c.bus (c.pc + 1)
      | 3 => uint16 (MAKE_SHORT (bus_read c.bus (c.pc + 2)) (bus_read c.bus (c.pc + 1)))
      | _ => 0) :
    cpu_cycle instruction_set k c =
      (0, if i.update_pc = true then
          { i.instruction c operand with pc := ((i.instruction c operand).pc + i.length) % 65536 }
        else i.instruction c operand) := by
  subst hi hop
  simp only [cpu_cycle, ge_iff_le, if_pos h, uint16_add]

theorem cpu_cycle_complete_some (instruction_set : Nat → instruction) (k : Nat) (c : cpu)
    (i : instruction) (hi : instruction_set (bus_read c.bus c.pc) = i)
    (h : i.duration ≤ (k + 1) % 256) :
    ∃ operand : Nat, cpu_cycle instruction_set k c =
      (0, if i.update_pc = true then
          { i.instruction c operand with pc := ((i.instruction c operand).pc + i.length) % 65536 }
        else i.instruction c operand) :=
  ⟨_, cpu_cycle_complete instruction_set k c i hi h _ rfl⟩

theorem cpu_cycle_complete_decoded (instruction_set : Nat → instruction) (k : Nat) (c : cpu)
    (i : instruction) (hi : instruction_set (bus_read c.bus c.pc) = i)
    (h : i.duration ≤ (k + 1) % 256) :
    cpu_cycle instruction_set k c =
      (0, if i.update_pc = true then
          { i.instruction c (decoded_operand i c) with
            pc := ((i.instruction c (decoded_operand i c)).pc + i.length) % 65536 }
        else i.instruction c (decoded_operand i c)) :=
  cpu_cycle_complete instruction_set k c i hi h (decoded_operand i c) rfl

/-! ## Fetch/execute timing -/

/-- C1 (timing of `cpu_cycle`): from a state whose in-flight counter is 0 and
whose opcode at `pc` has a descriptor `i` of duration `d` (`1 ≤ d ≤ 255`) and
length `l`, after each of the first `d-1` consecutive calls the CPU record (pc,
sp, ime, halted, registers, bus, interrupt controller) is the initial one and
only the counter has moved; the `d`-th call applies the opcode's effect once to
that untouched record, adds `l` to the pc the effect left when `update_pc` is
set, and puts the counter back to 0. -/
theorem cpu_cycle_timing (instruction_set : Nat → instruction) (c : cpu) (i : instruction)
    (hi : instruction_set (bus_read c.bus c.pc) = i)
    (hd1 : 1 ≤ i.duration) (hd : i.duration ≤ 255) :
    (∀ k, k < i.duration → cpu_cycles instruction_set k (0, c) = (k, c)) ∧
    ∃ operand : Nat,
      cpu_cycles instruction_set i.duration (0, c) =
        (0, if i.update_pc = true then
            { i.instruction c operand with
              pc := ((i.instruction c operand).pc + i.length) % 65536 }
          else i.instruction c operand) := by
  have hflight := cpu_cycles_in_flight instruction_set c i.duration hd (by rw [hi])
  refine ⟨hflight, ?_⟩
  obtain ⟨n, hn⟩ : ∃ n, i.duration = n + 1 := ⟨i.duration - 1, by omega⟩
  have hfire : i.duration ≤ (n + 1) % 256 := by
    rw [Nat.mod_eq_of_lt (by omega)]
    omega
  rw [hn, cpu_cycles_succ, hflight n (by omega)]
  exact ⟨_, cpu_cycle_complete instruction_set n c i hi hfire _ rfl⟩

/-- Witness of C1 on the example machine: the opcode `0x31` at `pc = 0x1234`
has duration 12 and length 3. -/
theorem cpu_cycle_timing_witness :
    example_instruction_set (bus_read (example_cpu 0 0).bus (example_cpu 0 0).pc)
        = example_load_sp ∧
    1 ≤ example_load_sp.duration ∧ example_load_sp.duration ≤ 255 ∧
    ((∀ k, k < example_load_sp.duration →
        cpu_cycles example_instruction_set k (0, example_cpu 0 0) = (k, example_cpu 0 0)) ∧
      ∃ operand : Nat,
        cpu_cycles example_instruction_set example_load_sp.duration (0, example_cpu 0 0) =
          (0, if example_load_sp.update_pc = true then
              { example_load_sp.instruction (example_cpu 0 0) operand with
                pc := ((example_load_sp.instruction (example_cpu 0 0) operand).pc
                  + example_load_sp.length) % 65536 }
            else example_load_sp.instruction (example_cpu 0 0) operand)) :=
  ⟨rfl, by decide, by decide,
    cpu_cycle_timing example_instruction_set (example_cpu 0 0) example_load_sp rfl
      (by decide) (by decide)⟩

/-- C2 (operand decoding in `cpu_cycle`): on a completing tick (the incremented
counter has reached the duration of the descriptor `i` fetched at `pc`), the
effect is applied to the pre-call record with operand 0 when the length is 1,
with the byte at `pc+1` when the length is 2, and with
`(byte at pc+2 << 8) | (byte at pc+1)` when the length is 3, all bytes being
read from the bus as it is before the effect runs. -/
theorem cpu_cycle_operand (instruction_set : Nat → instruction) (k : Nat) (c : cpu)
    (i : instruction) (hi : instruction_set (bus_read c.bus c.pc) = i)
    (hfire : i.duration ≤ (k + 1) % 256) :
    (i.length = 1 →
      (cpu_cycle instruction_set k c).2 =
        if i.update_pc = true then
          { i.instruction c 0 with pc := ((i.instruction c 0).pc + i.length) % 65536 }
        else i.instruction c 0) ∧
    (i.length = 2 →
      (cpu_cycle instruction_set k c).2 =
        if i.update_pc = true then
          { i.instruction c (bus_read c.bus (c.pc + 1)) with
            pc := ((i.instruction c (bus_read c.bus (c.pc + 1))).pc + i.length) % 65536 }
        else i.instruction c (bus_read c.bus (c.pc + 1))) ∧
    (i.length = 3 →
      (cpu_cycle instruction_set k c).2 =
        if i.update_pc = true then
          { i.instruction c ((bus_read c.bus (c.pc + 2) <<< 8) ||| bus_read c.bus (c.pc + 1)) with
            pc := ((i.instruction c
                ((bus_read c.bus (c.pc + 2) <<< 8) ||| bus_read c.bus (c.pc + 1))).pc
              + i.length) % 65536 }
        else i.instruction c
          ((bus_read c.bus (c.pc + 2) <<< 8) ||| bus_read c.bus (c.pc + 1))) := by
  refine ⟨fun h1 => ?_, fun h2 => ?_, fun h3 => ?_⟩
  · rw [cpu_cycle_complete instruction_set k c i hi hfire 0 (by rw [h1])]
  · rw [cpu_cycle_complete instruction_set k c i hi hfire (bus_read c.bus (c.pc + 1))
      (by rw [h2])]
  · have hlt := MAKE_SHORT_lt _ _ (bus_read_lt c.bus (c.pc + 2)) (bus_read_lt c.bus (c.pc + 1))
    have hop : (bus_read c.bus (c.pc + 2) <<< 8) ||| bus_read c.bus (c.pc + 1) =
        uint16 (MAKE_SHORT (bus_read c.bus (c.pc + 2)) (bus_read c.bus (c.pc + 1))) := by
      rw [uint16_natCast, Nat.mod_eq_of_lt hlt]
      rfl
    rw [cpu_cycle_complete instruction_set k c i hi hfire
      ((bus_read c.bus (c.pc + 2) <<< 8) ||| bus_read c.bus (c.pc + 1))
      (by rw [h3]; exact hop)]

/-- Witness of C2 on the example machine: the completing tick of the length-3
opcode at `0x1234` (bytes `31 FE FF`) passes `(0xFF << 8) | 0xFE` to the effect,
which stores it in `sp`. -/
theorem cpu_cycle_operand_witness :
    example_instruction_set (bus_read (example_cpu 0 0).bus (example_cpu 0 0).pc)
        = example_load_sp ∧
    example_load_sp.duration ≤ (11 + 1) % 256 ∧
    (cpu_cycle example_instruction_set 11 (example_cpu 0 0)).2 =
      (if example_load_sp.update_pc = true then
        { example_load_sp.instruction (example_cpu 0 0)
            ((bus_read (example_cpu 0 0).bus ((example_cpu 0 0).pc + 2) <<< 8)
              ||| bus_read (example_cpu 0 0).bus ((example_cpu 0 0).pc + 1)) with
          pc := ((example_load_sp.instruction (example_cpu 0 0)
              ((bus_read (example_cpu 0 0).bus ((example_cpu 0 0).pc + 2) <<< 8)
                ||| bus_read (example_cpu 0 0).bus ((example_cpu 0 0).pc + 1))).pc
            + example_load_sp.length) % 65536 }
      else example_load_sp.instruction (example_cpu 0 0)
        ((bus_read (example_cpu 0 0).bus ((example_cpu 0 0).pc + 2) <<< 8)
          ||| bus_read (example_cpu 0 0).bus ((example_cpu 0 0).pc + 1))) ∧
    (cpu_cycle example_instruction_set 11 (example_cpu 0 0)).2.sp = 0xFFFE :=
  ⟨rfl, by decide,
    (cpu_cycle_operand example_instruction_set 11 (example_cpu 0 0) example_load_sp rfl
      (by decide)).2.2 rfl,
    by decide⟩

/-! ## Program-counter policy -/

/-- C3 (program-counter policy of `cpu_cycle`): on a completing tick, with `i`
the descriptor fetched at `pc` before the effect ran and `e` the record the
effect left when applied to the pre-call record and the decoded operand: if
`update_pc` is set the call returns `e` with pc `(e.pc + i.length) mod 2^16`,
otherwise it returns `e` itself, so the final pc is exactly `e.pc`; in
particular, when the effect never changes pc and `update_pc` is set, the final
pc is the old pc plus the length (`mod 2^16`, and without reduction when the
sum is below `2^16`). -/
theorem cpu_cycle_pc_policy (instruction_set : Nat → instruction) (k : Nat) (c : cpu)
    (i : instruction) (hi : instruction_set (bus_read c.bus c.pc) = i)
    (hfire : i.duration ≤ (k + 1) % 256) :
    (i.update_pc = true →
      (cpu_cycle instruction_set k c).2.pc
        = ((i.instruction c (decoded_operand i c)).pc + i.length) % 65536 ∧
      (cpu_cycle instruction_set k c).2
        = { i.instruction c (decoded_operand i c) with
            pc := ((i.instruction c (decoded_operand i c)).pc + i.length) % 65536 }) ∧
    (i.update_pc = false →
      (cpu_cycle instruction_set k c).2.pc = (i.instruction c (decoded_operand i c)).pc ∧
      (cpu_cycle instruction_set k c).2 = i.instruction c (decoded_operand i c)) ∧
    (i.update_pc = true → (∀ (s : cpu) (v : Nat), (i.instruction s v).pc = s.pc) →
      (cpu_cycle instruction_set k c).2.pc = (c.pc + i.length) % 65536 ∧
      (c.pc + i.length < 65536 →
        (cpu_cycle instruction_set k c).2.pc = c.pc + i.length)) := by
  rw [cpu_cycle_complete_decoded instruction_set k c i hi hfire]
  refine ⟨fun hu => ?_, fun hu => ?_, fun hu hpc => ?_⟩
  · simp only [hu, if_true, and_self]
  · simp only [hu, Bool.false_eq_true, if_false, and_self]
  · have h1 : ((0, if i.update_pc = true then
          { i.instruction c (decoded_operand i c) with
            pc := ((i.instruction c (decoded_operand i c)).pc + i.length) % 65536 }
        else i.instruction c (decoded_operand i c)) : Nat × cpu).2.pc
          = (c.pc + i.length) % 65536 := by
      simp only [hu, if_true, hpc]
    exact ⟨h1, fun hlt => by rw [h1, Nat.mod_eq_of_lt hlt]⟩

/-- Witness of C3 on the example machine, at the completing tick of the jump
at `0x2000` (bytes `C3 50 01`, `update_pc` clear): the decoded operand is
`0x0150`, the effect stores it in pc, and the final pc is `0x0150`. -/
theorem cpu_cycle_pc_policy_witness :
    example_instruction_set
        (bus_read ({ example_cpu 0 0 with pc := 0x2000 } : cpu).bus
          ({ example_cpu 0 0 with pc := 0x2000 } : cpu).pc) = example_jump ∧
    example_jump.duration ≤ (15 + 1) % 256 ∧
    example_jump.update_pc = false ∧
    ((cpu_cycle example_instruction_set 15 { example_cpu 0 0 with pc := 0x2000 }).2.pc
        = (example_jump.instruction { example_cpu 0 0 with pc := 0x2000 }
            (decoded_operand example_jump { example_cpu 0 0 with pc := 0x2000 })).pc ∧
      (cpu_cycle example_instruction_set 15 { example_cpu 0 0 with pc := 0x2000 }).2
        = example_jump.instruction { example_cpu 0 0 with pc := 0x2000 }
            (decoded_operand example_jump { example_cpu 0 0 with pc := 0x2000 })) ∧
    decoded_operand example_jump { example_cpu 0 0 with pc := 0x2000 } = 0x0150 ∧
    (cpu_cycle example_instruction_set 15 { example_cpu 0 0 with pc := 0x2000 }).2.pc
      = 0x0150 :=
  ⟨rfl, by decide, rfl,
    (cpu_cycle_pc_policy example_instruction_set 15 { example_cpu 0 0 with pc := 0x2000 }
      example_jump rfl (by decide)).2.1 rfl,
    by decide, by decide⟩

/-! ## Interrupt dispatch: auxiliary facts -/

theorem and_flag_ne_zero_iff (a b k : Nat) :
    (a &&& b) &&& 2 ^ k ≠ 0 ↔ a &&& 2 ^ k ≠ 0 ∧ b &&& 2 ^ k ≠ 0 := by
  have hpow : 2 ^ k ≠ 0 := by positivity
  simp only [Nat.and_two_pow, Nat.testBit_and]
  cases a.testBit k <;> cases b.testBit k <;> simp [hpow]

theorem ne_zero_of_and_ne_zero (a f : Nat) (h : a &&& f ≠ 0) : a ≠ 0 := by
  rintro rfl
  exact h (Nat.zero_and f)

theorem HIGH_BYTE_eq (x : Nat) : HIGH_BYTE x = x / 256 % 256 := by
  unfold HIGH_BYTE
  rw [Nat.shiftRight_eq_div_pow]
  exact Nat.and_pow_two_sub_one_eq_mod _ 8

theorem LOW_BYTE_eq (x : Nat) : LOW_BYTE x = x % 256 := by
  unfold LOW_BYTE
  exact Nat.and_pow_two_sub_one_eq_mod _ 8

/-- The vector selection of `cpu_handle_interrupts`: the `if`/`else if` chain
over `interrupt_flags & interrupt_enable`, with the old pc when no branch is
taken. -/
theorem cpu_handle_interrupts_dispatch (A : interrupt_addresses) (c : cpu)
    (hime : c.ime = true)
    (hif : c.interrupt_controller.interrupt_flags ≠ 0)
    (hie : c.interrupt_controller.interrupt_enable ≠ 0) :
    cpu_handle_interrupts A c =
      { registers := c.registers
        pc :=
          if (c.interrupt_controller.interrupt_flags &&& c.interrupt_controller.interrupt_enable)
              &&& INTERRUPT_FLAG_V_BLANK ≠ 0 then A.INTERRUPT_V_BLANK_ADDRESS
          else if (c.interrupt_controller.interrupt_flags
              &&& c.interrupt_controller.interrupt_enable)
              &&& INTERRUPT_FLAG_LCDC_STAT ≠ 0 then A.INTERRUPT_LCDC_STAT_ADDRESS
          else if (c.interrupt_controller.interrupt_flags
              &&& c.interrupt_controller.interrupt_enable)
              &&& INTERRUPT_FLAG_TIMER ≠ 0 then A.INTERRUPT_TIMER_ADDRESS
          else if (c.interrupt_controller.interrupt_flags
              &&& c.interrupt_controller.interrupt_enable)
              &&& INTERRUPT_FLAG_SERIAL ≠ 0 then A.INTERRUPT_SERIAL_ADDRESS
          else if (c.interrupt_controller.interrupt_flags
              &&& c.interrupt_controller.interrupt_enable)
              &&& INTERRUPT_FLAG_JOYPAD ≠ 0 then A.INTERRUPT_JOYPAD_ADDRESS
          else c.pc
        sp := uint16 (c.sp - 2)
        ime := false
        halted := false
        interrupt_controller :=
          { interrupt_flags := 0
            interrupt_enable := c.interrupt_controller.interrupt_enable }
        bus := bus_write (bus_write c.bus (c.sp - 1) (HIGH_BYTE c.pc)) (c.sp - 2)
          (LOW_BYTE c.pc) } := by
  unfold cpu_handle_interrupts
  simp only [hime, if_true, hif, hie, or_self, if_false]
  cases c.halted <;> (simp only [Bool.false_eq_true, if_false, if_true]; split_ifs <;> rfl)

theorem cpu_handle_interrupts_idle (A : interrupt_addresses) (c : cpu)
    (h : c.ime = false ∨ c.interrupt_controller.interrupt_flags = 0
      ∨ c.interrupt_controller.interrupt_enable = 0) :
    cpu_handle_interrupts A c = c := by
  unfold cpu_handle_interrupts
  rcases h with h | h | h
  · simp [h]
  · simp [h]
  · simp [h]

theorem bus_read_write_same (b : bus) (address : Int) (value : Nat) :
    bus_read (bus_write b address value) address = value % 256 := by
  simp [bus_read, bus_write]

theorem bus_read_write_other (b : bus) (a1 a2 : Int) (value : Nat)
    (h : uint16 a2 ≠ uint16 a1) :
    bus_read (bus_write b a1 value) a2 = bus_read b a2 := by
  simp [bus_read, bus_write, h]

theorem requested_and_enabled_iff (ic : interrupt_controller) (k : Nat) :
    requested_and_enabled ic (2 ^ k) ↔
      (ic.interrupt_flags &&& ic.interrupt_enable) &&& 2 ^ k ≠ 0 :=
  (and_flag_ne_zero_iff _ _ k).symm

theorem registers_ne_zero_of_requested_and_enabled (A : interrupt_addresses)
    (ic : interrupt_controller)
    (h : ∃ e ∈ interrupt_table A, requested_and_enabled ic e.1) :
    ic.interrupt_flags ≠ 0 ∧ ic.interrupt_enable ≠ 0 := by
  obtain ⟨e, _, h1, h2⟩ := h
  exact ⟨ne_zero_of_and_ne_zero _ _ h1, ne_zero_of_and_ne_zero _ _ h2⟩

/-- The pc after a dispatch is the service address of the first requested and
enabled source of the table, which the scan of the table over
`interrupt_flags & interrupt_enable` finds as well. -/
theorem cpu_handle_interrupts_selects (A : interrupt_addresses) (c : cpu)
    (hime : c.ime = true)
    (hex : ∃ e ∈ interrupt_table A, requested_and_enabled c.interrupt_controller e.1) :
    first_requested_and_enabled c.interrupt_controller (interrupt_table A)
      = some (cpu_handle_interrupts A c).pc ∧
    scan_table (c.interrupt_controller.interrupt_flags
        &&& c.interrupt_controller.interrupt_enable) (interrupt_table A)
      = some (cpu_handle_interrupts A c).pc := by
  obtain ⟨hif, hie⟩ := registers_ne_zero_of_requested_and_enabled A _ hex
  rw [cpu_handle_interrupts_dispatch A c hime hif hie]
  have k0 := requested_and_enabled_iff c.interrupt_controller 0
  have k1 := requested_and_enabled_iff c.interrupt_controller 1
  have k2 := requested_and_enabled_iff c.interrupt_controller 2
  have k3 := requested_and_enabled_iff c.interrupt_controller 3
  have k4 := requested_and_enabled_iff c.interrupt_controller 4
  change requested_and_enabled _ INTERRUPT_FLAG_V_BLANK ↔ _ &&& INTERRUPT_FLAG_V_BLANK ≠ 0
    at k0
  change requested_and_enabled _ INTERRUPT_FLAG_LCDC_STAT ↔ _ &&& INTERRUPT_FLAG_LCDC_STAT ≠ 0
    at k1
  change requested_and_enabled _ INTERRUPT_FLAG_TIMER ↔ _ &&& INTERRUPT_FLAG_TIMER ≠ 0 at k2
  change requested_and_enabled _ INTERRUPT_FLAG_SERIAL ↔ _ &&& INTERRUPT_FLAG_SERIAL ≠ 0 at k3
  change requested_and_enabled _ INTERRUPT_FLAG_JOYPAD ↔ _ &&& INTERRUPT_FLAG_JOYPAD ≠ 0 at k4
  obtain ⟨e, he, hre⟩ := hex
  simp only [interrupt_table, List.mem_cons, List.mem_singleton, List.mem_nil_iff,
    or_false] at he
  simp only [interrupt_table, first_requested_and_enabled, scan_table, k0, k1, k2, k3, k4]
  rcases he with rfl | rfl | rfl | rfl | rfl
  · rw [k0] at hre
    split_ifs
    simp_all
  · rw [k1] at hre
    split_ifs <;> simp_all
  · rw [k2] at hre
    split_ifs <;> simp_all
  · rw [k3] at hre
    split_ifs <;> simp_all
  · rw [k4] at hre
    split_ifs <;> simp_all

/-- The two bytes written by a dispatch and the stack pointer it leaves. -/
theorem cpu_handle_interrupts_stack (A : interrupt_addresses) (c : cpu)
    (hime : c.ime = true)
    (hif : c.interrupt_controller.interrupt_flags ≠ 0)
    (hie : c.interrupt_controller.interrupt_enable ≠ 0) :
    bus_read (cpu_handle_interrupts A c).bus (c.sp - 1) = c.pc / 256 % 256 ∧
    bus_read (cpu_handle_interrupts A c).bus (c.sp - 2) = c.pc % 256 ∧
    ((cpu_handle_interrupts A c).sp : Int) = ((c.sp : Int) - 2) % 65536 := by
  rw [cpu_handle_interrupts_dispatch A c hime hif hie]
  refine ⟨?_, ?_, ?_⟩
  · have hne : uint16 ((c.sp : Int) - 1) ≠ uint16 ((c.sp : Int) - 2) := by
      unfold uint16
      omega
    simp only
    rw [bus_read_write_other _ _ _ _ hne, bus_read_write_same, HIGH_BYTE_eq, Nat.mod_mod]
  · simp only
    rw [bus_read_write_same, LOW_BYTE_eq, Nat.mod_mod]
  · simp only [uint16]
    omega

/-! ## Interrupt gating -/

/-- C4 (interrupt gating): when `ime` is false, whatever `interrupt_flags` and
`interrupt_enable` hold, `cpu_handle_interrupts` leaves pc, sp and
`interrupt_flags` unchanged. -/
theorem cpu_handle_interrupts_gated (A : interrupt_addresses) (c : cpu)
    (hime : c.ime = false) :
    (cpu_handle_interrupts A c).pc = c.pc ∧
    (cpu_handle_interrupts A c).sp = c.sp ∧
    (cpu_handle_interrupts A c).interrupt_controller.interrupt_flags
      = c.interrupt_controller.interrupt_flags := by
  rw [cpu_handle_interrupts_idle A c (Or.inl hime)]
  exact ⟨rfl, rfl, rfl⟩

/-- Witness of C4: the example CPU with `ime` cleared and all five sources
requested and enabled. -/
theorem cpu_handle_interrupts_gated_witness :
    ({ example_cpu 0x1F 0x1F with ime := false } : cpu).ime = false ∧
    ((cpu_handle_interrupts example_addresses { example_cpu 0x1F 0x1F with ime := false }).pc
        = ({ example_cpu 0x1F 0x1F with ime := false } : cpu).pc ∧
      (cpu_handle_interrupts example_addresses { example_cpu 0x1F 0x1F with ime := false }).sp
        = ({ example_cpu 0x1F 0x1F with ime := false } : cpu).sp ∧
      (cpu_handle_interrupts example_addresses
          { example_cpu 0x1F 0x1F with ime := false }).interrupt_controller.interrupt_flags
        = ({ example_cpu 0x1F 0x1F with ime := false } : cpu).interrupt_controller.interrupt_flags) :=
  ⟨rfl, cpu_handle_interrupts_gated example_addresses
    { example_cpu 0x1F 0x1F with ime := false } rfl⟩

/-! ## Interrupt priority -/

/-- C5 (interrupt priority): with `ime` set and at least one of the five
sources requested and enabled, `cpu_handle_interrupts` sets pc to the service
address of the first requested-and-enabled source in the order V-blank,
LCDC-stat, timer, serial, joypad, which is also the result of scanning the
ordered table over `interrupt_flags & interrupt_enable`; in particular with
`interrupt_flags = interrupt_enable = 0b00011` pc becomes the V-blank address,
hence not the LCDC-stat address when the two addresses differ. -/
theorem cpu_handle_interrupts_priority (A : interrupt_addresses) (c : cpu)
    (hime : c.ime = true) :
    ((∃ e ∈ interrupt_table A, requested_and_enabled c.interrupt_controller e.1) →
      first_requested_and_enabled c.interrupt_controller (interrupt_table A)
        = some (cpu_handle_interrupts A c).pc ∧
      scan_table (c.interrupt_controller.interrupt_flags
          &&& c.interrupt_controller.interrupt_enable) (interrupt_table A)
        = some (cpu_handle_interrupts A c).pc) ∧
    (c.interrupt_controller.interrupt_flags = 0b00011 →
      c.interrupt_controller.interrupt_enable = 0b00011 →
      (cpu_handle_interrupts A c).pc = A.INTERRUPT_V_BLANK_ADDRESS ∧
      (A.INTERRUPT_V_BLANK_ADDRESS ≠ A.INTERRUPT_LCDC_STAT_ADDRESS →
        (cpu_handle_interrupts A c).pc ≠ A.INTERRUPT_LCDC_STAT_ADDRESS)) := by
  refine ⟨cpu_handle_interrupts_selects A c hime, ?_⟩
  · intro hf he
    have hif : c.interrupt_controller.interrupt_flags ≠ 0 := by rw [hf]; decide
    have hie : c.interrupt_controller.interrupt_enable ≠ 0 := by rw [he]; decide
    have hpc : (cpu_handle_interrupts A c).pc = A.INTERRUPT_V_BLANK_ADDRESS := by
      rw [cpu_handle_interrupts_dispatch A c hime hif hie, hf, he]
      simp only
      rw [if_pos (by decide)]
    exact ⟨hpc, fun hne => by rw [hpc]; exact hne⟩

/-- Witness of C5: the example CPU with
`interrupt_flags = interrupt_enable = 0b00011` jumps to the V-blank address. -/
theorem cpu_handle_interrupts_priority_witness :
    (example_cpu 0b00011 0b00011).ime = true ∧
    (((∃ e ∈ interrupt_table example_addresses,
        requested_and_enabled (example_cpu 0b00011 0b00011).interrupt_controller e.1) →
      first_requested_and_enabled (example_cpu 0b00011 0b00011).interrupt_controller
          (interrupt_table example_addresses)
        = some (cpu_handle_interrupts example_addresses (example_cpu 0b00011 0b00011)).pc ∧
      scan_table ((example_cpu 0b00011 0b00011).interrupt_controller.interrupt_flags
          &&& (example_cpu 0b00011 0b00011).interrupt_controller.interrupt_enable)
          (interrupt_table example_addresses)
        = some (cpu_handle_interrupts example_addresses (example_cpu 0b00011 0b00011)).pc) ∧
    ((example_cpu 0b00011 0b00011).interrupt_controller.interrupt_flags = 0b00011 →
      (example_cpu 0b00011 0b00011).interrupt_controller.interrupt_enable = 0b00011 →
      (cpu_handle_interrupts example_addresses (example_cpu 0b00011 0b00011)).pc
        = example_addresses.INTERRUPT_V_BLANK_ADDRESS ∧
      (example_addresses.INTERRUPT_V_BLANK_ADDRESS
          ≠ example_addresses.INTERRUPT_LCDC_STAT_ADDRESS →
        (cpu_handle_interrupts example_addresses (example_cpu 0b00011 0b00011)).pc
          ≠ example_addresses.INTERRUPT_LCDC_STAT_ADDRESS))) ∧
    (cpu_handle_interrupts example_addresses (example_cpu 0b00011 0b00011)).pc = 0x40 :=
  ⟨rfl, cpu_handle_interrupts_priority example_addresses (example_cpu 0b00011 0b00011) rfl,
    by decide⟩

/-! ## Stack push on dispatch -/

/-- C6 (stack push on dispatch): with `ime` set and both `interrupt_flags` and
`interrupt_enable` non-zero, after `cpu_handle_interrupts` the bus holds the
high byte of the pre-call pc at address `sp0-1` and its low byte at address
`sp0-2`, and sp equals `sp0-2` modulo `2^16`. -/
theorem cpu_handle_interrupts_push (A : interrupt_addresses) (c : cpu)
    (hime : c.ime = true)
    (hif : c.interrupt_controller.interrupt_flags ≠ 0)
    (hie : c.interrupt_controller.interrupt_enable ≠ 0) :
    bus_read (cpu_handle_interrupts A c).bus (c.sp - 1) = c.pc / 256 % 256 ∧
    bus_read (cpu_handle_interrupts A c).bus (c.sp - 2) = c.pc % 256 ∧
    ((cpu_handle_interrupts A c).sp : Int) = ((c.sp : Int) - 2) % 65536 :=
  cpu_handle_interrupts_stack A c hime hif hie

/-- Witness of C6: the example CPU (`pc = 0x1234`, `sp = 0x8000`) with the
timer requested and enabled. -/
theorem cpu_handle_interrupts_push_witness :
    (example_cpu 0x04 0x04).ime = true ∧
    (example_cpu 0x04 0x04).interrupt_controller.interrupt_flags ≠ 0 ∧
    (example_cpu 0x04 0x04).interrupt_controller.interrupt_enable ≠ 0 ∧
    (bus_read (cpu_handle_interrupts example_addresses (example_cpu 0x04 0x04)).bus
        ((example_cpu 0x04 0x04).sp - 1) = (example_cpu 0x04 0x04).pc / 256 % 256 ∧
      bus_read (cpu_handle_interrupts example_addresses (example_cpu 0x04 0x04)).bus
        ((example_cpu 0x04 0x04).sp - 2) = (example_cpu 0x04 0x04).pc % 256 ∧
      ((cpu_handle_interrupts example_addresses (example_cpu 0x04 0x04)).sp : Int)
        = (((example_cpu 0x04 0x04).sp : Int) - 2) % 65536) :=
  ⟨rfl, by decide, by decide,
    cpu_handle_interrupts_push example_addresses (example_cpu 0x04 0x04) rfl
      (by decide) (by decide)⟩

/-- C7 (stack push worked example), as the code behaves: from `pc = 0x1234`,
`sp = 0x8000`, `ime` set and a requested and enabled interrupt, after
`cpu_handle_interrupts` bus address `0x7FFF` holds `0x12` (the high byte of
pc), bus address `0x7FFE` holds `0x34` (the low byte of pc), and
`sp = 0x7FFE`. -/
theorem cpu_handle_interrupts_push_example (A : interrupt_addresses) (c : cpu)
    (hpc : c.pc = 0x1234) (hsp : c.sp = 0x8000) (hime : c.ime = true)
    (hex : ∃ e ∈ interrupt_table A, requested_and_enabled c.interrupt_controller e.1) :
    bus_read (cpu_handle_interrupts A c).bus 0x7FFF = 0x12 ∧
    bus_read (cpu_handle_interrupts A c).bus 0x7FFE = 0x34 ∧
    (cpu_handle_interrupts A c).sp = 0x7FFE := by
  obtain ⟨hif, hie⟩ := registers_ne_zero_of_requested_and_enabled A _ hex
  obtain ⟨h1, h2, h3⟩ := cpu_handle_interrupts_stack A c hime hif hie
  rw [hsp] at h1 h2 h3
  rw [hpc] at h1 h2
  norm_num at h1 h2 h3
  refine ⟨h1, h2, ?_⟩
  omega

/-- Witness of C7 as amended: the example CPU with V-blank requested and
enabled. -/
theorem cpu_handle_interrupts_push_example_witness :
    (example_cpu 0x01 0x01).pc = 0x1234 ∧ (example_cpu 0x01 0x01).sp = 0x8000 ∧
    (example_cpu 0x01 0x01).ime = true ∧
    (∃ e ∈ interrupt_table example_addresses,
      requested_and_enabled (example_cpu 0x01 0x01).interrupt_controller e.1) ∧
    (bus_read (cpu_handle_interrupts example_addresses (example_cpu 0x01 0x01)).bus 0x7FFF
        = 0x12 ∧
      bus_read (cpu_handle_interrupts example_addresses (example_cpu 0x01 0x01)).bus 0x7FFE
        = 0x34 ∧
      (cpu_handle_interrupts example_addresses (example_cpu 0x01 0x01)).sp = 0x7FFE) :=
  ⟨rfl, rfl, rfl, ⟨(INTERRUPT_FLAG_V_BLANK, 0x40), by decide, by decide⟩,
    cpu_handle_interrupts_push_example example_addresses (example_cpu 0x01 0x01) rfl rfl rfl
      ⟨(INTERRUPT_FLAG_V_BLANK, 0x40), by decide, by decide⟩⟩

/-- C7 as stated fails: from `pc = 0x1234`, `sp = 0x8000`, `ime` set and
V-blank requested and enabled, it is not the case that `0x7FFF` holds `0x34`,
`0x7FFE` holds `0x12` and `sp = 0x7FFE`; address `0x7FFF` holds `0x12`. -/
theorem cpu_handle_interrupts_push_example_refuted :
    (example_cpu 0x01 0x01).pc = 0x1234 ∧ (example_cpu 0x01 0x01).sp = 0x8000 ∧
    (example_cpu 0x01 0x01).ime = true ∧
    requested_and_enabled (example_cpu 0x01 0x01).interrupt_controller
      INTERRUPT_FLAG_V_BLANK ∧
    ¬ (bus_read (cpu_handle_interrupts example_addresses (example_cpu 0x01 0x01)).bus 0x7FFF
        = 0x34 ∧
      bus_read (cpu_handle_interrupts example_addresses (example_cpu 0x01 0x01)).bus 0x7FFE
        = 0x12 ∧
      (cpu_handle_interrupts example_addresses (example_cpu 0x01 0x01)).sp = 0x7FFE) ∧
    bus_read (cpu_handle_interrupts example_addresses (example_cpu 0x01 0x01)).bus 0x7FFF
      = 0x12 := by
  decide

/-! ## A tick with nothing to service -/

/-- C8 (no-op interrupt tick), evaluated where the code departs from it: on
the example CPU with `ime` set, `interrupt_flags = 0x01` and
`interrupt_enable = 0x02`, no source of the table is requested and enabled, yet
`cpu_handle_interrupts` writes the two bytes of pc to `0x7FFF` and `0x7FFE`,
moves sp from `0x8000` to `0x7FFE`, clears `ime`, `halted` and
`interrupt_flags`, and leaves pc where it was. -/
theorem cpu_handle_interrupts_disjoint_registers :
    (example_cpu 0x01 0x02).ime = true ∧
    (∀ e ∈ interrupt_table example_addresses,
      ¬ requested_and_enabled (example_cpu 0x01 0x02).interrupt_controller e.1) ∧
    (example_cpu 0x01 0x02).sp = 0x8000 ∧
    (cpu_handle_interrupts example_addresses (example_cpu 0x01 0x02)).sp = 0x7FFE ∧
    bus_read (example_cpu 0x01 0x02).bus 0x7FFF = 0x00 ∧
    bus_read (cpu_handle_interrupts example_addresses (example_cpu 0x01 0x02)).bus 0x7FFF
      = 0x12 ∧
    bus_read (example_cpu 0x01 0x02).bus 0x7FFE = 0x00 ∧
    bus_read (cpu_handle_interrupts example_addresses (example_cpu 0x01 0x02)).bus 0x7FFE
      = 0x34 ∧
    (cpu_handle_interrupts example_addresses (example_cpu 0x01 0x02)).ime = false ∧
    (example_cpu 0x01 0x02).halted = true ∧
    (cpu_handle_interrupts example_addresses (example_cpu 0x01 0x02)).halted = false ∧
    (example_cpu 0x01 0x02).interrupt_controller.interrupt_flags = 0x01 ∧
    (cpu_handle_interrupts example_addresses
      (example_cpu 0x01 0x02)).interrupt_controller.interrupt_flags = 0x00 ∧
    (cpu_handle_interrupts example_addresses (example_cpu 0x01 0x02)).pc = 0x1234 := by
  decide

/-! ## Request flags after a dispatch -/

/-- C9 (lower-priority interrupts), as the code behaves: with `ime` set and
two or more sources requested and enabled, after `cpu_handle_interrupts` has
serviced the highest-priority one, the `interrupt_flags` bit of every
requested and enabled source, the lower-priority ones included, is clear: the
lower-priority requests do not stay latched. -/
theorem cpu_handle_interrupts_drops_lower_priority (A : interrupt_addresses) (c : cpu)
    (hime : c.ime = true)
    (htwo : ∃ e1 ∈ interrupt_table A, ∃ e2 ∈ interrupt_table A, e1.1 ≠ e2.1 ∧
      requested_and_enabled c.interrupt_controller e1.1 ∧
      requested_and_enabled c.interrupt_controller e2.1) :
    first_requested_and_enabled c.interrupt_controller (interrupt_table A)
      = some (cpu_handle_interrupts A c).pc ∧
    ∀ e ∈ interrupt_table A, requested_and_enabled c.interrupt_controller e.1 →
      (cpu_handle_interrupts A c).interrupt_controller.interrupt_flags &&& e.1 = 0 := by
  obtain ⟨e1, he1, _, _, _, hre1, _⟩ := htwo
  have hex : ∃ e ∈ interrupt_table A, requested_and_enabled c.interrupt_controller e.1 :=
    ⟨e1, he1, hre1⟩
  obtain ⟨hif, hie⟩ := registers_ne_zero_of_requested_and_enabled A _ hex
  refine ⟨(cpu_handle_interrupts_selects A c hime hex).1, ?_⟩
  intro e _ _
  rw [cpu_handle_interrupts_dispatch A c hime hif hie]
  exact Nat.zero_and _

/-- Witness of C9 as amended: the example CPU with V-blank and LCDC-stat both
requested and enabled. -/
theorem cpu_handle_interrupts_drops_lower_priority_witness :
    (example_cpu 0b00011 0b00011).ime = true ∧
    (∃ e1 ∈ interrupt_table example_addresses, ∃ e2 ∈ interrupt_table example_addresses,
      e1.1 ≠ e2.1 ∧
      requested_and_enabled (example_cpu 0b00011 0b00011).interrupt_controller e1.1 ∧
      requested_and_enabled (example_cpu 0b00011 0b00011).interrupt_controller e2.1) ∧
    (first_requested_and_enabled (example_cpu 0b00011 0b00011).interrupt_controller
        (interrupt_table example_addresses)
      = some (cpu_handle_interrupts example_addresses (example_cpu 0b00011 0b00011)).pc ∧
    ∀ e ∈ interrupt_table example_addresses,
      requested_and_enabled (example_cpu 0b00011 0b00011).interrupt_controller e.1 →
      (cpu_handle_interrupts example_addresses
        (example_cpu 0b00011 0b00011)).interrupt_controller.interrupt_flags &&& e.1 = 0) :=
  ⟨rfl,
    ⟨(INTERRUPT_FLAG_V_BLANK, 0x40), by decide, (INTERRUPT_FLAG_LCDC_STAT, 0x48), by decide,
      by decide, by decide, by decide⟩,
    cpu_handle_interrupts_drops_lower_priority example_addresses (example_cpu 0b00011 0b00011)
      rfl
      ⟨(INTERRUPT_FLAG_V_BLANK, 0x40), by decide, (INTERRUPT_FLAG_LCDC_STAT, 0x48), by decide,
        by decide, by decide, by decide⟩⟩

/-- C9 as stated fails: on the example CPU with `ime` set and V-blank and
LCDC-stat both requested and enabled, `cpu_handle_interrupts` services V-blank
(pc becomes its address) and the `interrupt_flags` bit of the lower-priority
LCDC-stat source is no longer set afterwards. -/
theorem cpu_handle_interrupts_latch_refuted :
    (example_cpu 0b00011 0b00011).ime = true ∧
    requested_and_enabled (example_cpu 0b00011 0b00011).interrupt_controller
      INTERRUPT_FLAG_V_BLANK ∧
    requested_and_enabled (example_cpu 0b00011 0b00011).interrupt_controller
      INTERRUPT_FLAG_LCDC_STAT ∧
    (cpu_handle_interrupts example_addresses (example_cpu 0b00011 0b00011)).pc
      = example_addresses.INTERRUPT_V_BLANK_ADDRESS ∧
    ¬ ((cpu_handle_interrupts example_addresses
        (example_cpu 0b00011 0b00011)).interrupt_controller.interrupt_flags
      &&& INTERRUPT_FLAG_LCDC_STAT ≠ 0) := by
  decide

/-- C10 (request flags cleared on dispatch): with `ime` set and both
`interrupt_flags` and `interrupt_enable` non-zero, after
`cpu_handle_interrupts` the register `interrupt_flags` is `0x00` (every bit)
and `interrupt_enable` is unchanged. -/
theorem cpu_handle_interrupts_clears_flags (A : interrupt_addresses) (c : cpu)
    (hime : c.ime = true)
    (hif : c.interrupt_controller.interrupt_flags ≠ 0)
    (hie : c.interrupt_controller.interrupt_enable ≠ 0) :
    (cpu_handle_interrupts A c).interrupt_controller.interrupt_flags = 0x00 ∧
    (cpu_handle_interrupts A c).interrupt_controller.interrupt_enable
      = c.interrupt_controller.interrupt_enable := by
  rw [cpu_handle_interrupts_dispatch A c hime hif hie]
  exact ⟨rfl, rfl⟩

/-- Witness of C10: the example CPU with all five sources requested and only
V-blank and LCDC-stat enabled. -/
theorem cpu_handle_interrupts_clears_flags_witness :
    (example_cpu 0x1F 0x03).ime = true ∧
    (example_cpu 0x1F 0x03).interrupt_controller.interrupt_flags ≠ 0 ∧
    (example_cpu 0x1F 0x03).interrupt_controller.interrupt_enable ≠ 0 ∧
    ((cpu_handle_interrupts example_addresses
        (example_cpu 0x1F 0x03)).interrupt_controller.interrupt_flags = 0x00 ∧
      (cpu_handle_interrupts example_addresses
        (example_cpu 0x1F 0x03)).interrupt_controller.interrupt_enable
        = (example_cpu 0x1F 0x03).interrupt_controller.interrupt_enable) :=
  ⟨rfl, by decide, by decide,
    cpu_handle_interrupts_clears_flags example_addresses (example_cpu 0x1F 0x03) rfl
      (by decide) (by decide)⟩

/-! ## Halt wake and the interrupt master enable -/

/-- C11 (halt wake): from a state with `halted` and `ime` set and one
interrupt source both requested and enabled, after `cpu_handle_interrupts`
`halted` is false. -/
theorem cpu_handle_interrupts_wakes (A : interrupt_addresses) (c : cpu)
    (hhalted : c.halted = true) (hime : c.ime = true)
    (hex : ∃ e ∈ interrupt_table A, requested_and_enabled c.interrupt_controller e.1) :
    (cpu_handle_interrupts A c).halted = false := by
  obtain ⟨hif, hie⟩ := registers_ne_zero_of_requested_and_enabled A _ hex
  have hwake : c.halted = true → (cpu_handle_interrupts A c).halted = false := by
    intro _
    rw [cpu_handle_interrupts_dispatch A c hime hif hie]
  exact hwake hhalted

/-- Witness of C11: the halted example CPU with the serial source requested
and enabled. -/
theorem cpu_handle_interrupts_wakes_witness :
    (example_cpu 0x08 0x08).halted = true ∧ (example_cpu 0x08 0x08).ime = true ∧
    (∃ e ∈ interrupt_table example_addresses,
      requested_and_enabled (example_cpu 0x08 0x08).interrupt_controller e.1) ∧
    (cpu_handle_interrupts example_addresses (example_cpu 0x08 0x08)).halted = false :=
  ⟨rfl, rfl, ⟨(INTERRUPT_FLAG_SERIAL, 0x58), by decide, by decide⟩,
    cpu_handle_interrupts_wakes example_addresses (example_cpu 0x08 0x08) rfl rfl
      ⟨(INTERRUPT_FLAG_SERIAL, 0x58), by decide, by decide⟩⟩

/-- C12 (IME cleared on dispatch): with `ime` set and both `interrupt_flags`
and `interrupt_enable` non-zero, after `cpu_handle_interrupts` `ime` is
false. -/
theorem cpu_handle_interrupts_clears_ime (A : interrupt_addresses) (c : cpu)
    (hime : c.ime = true)
    (hif : c.interrupt_controller.interrupt_flags ≠ 0)
    (hie : c.interrupt_controller.interrupt_enable ≠ 0) :
    (cpu_handle_interrupts A c).ime = false := by
  rw [cpu_handle_interrupts_dispatch A c hime hif hie]

/-- Witness of C12: the example CPU with the joypad requested and every
source enabled. -/
theorem cpu_handle_interrupts_clears_ime_witness :
    (example_cpu 0x10 0x1F).ime = true ∧
    (example_cpu 0x10 0x1F).interrupt_controller.interrupt_flags ≠ 0 ∧
    (example_cpu 0x10 0x1F).interrupt_controller.interrupt_enable ≠ 0 ∧
    (cpu_handle_interrupts example_addresses (example_cpu 0x10 0x1F)).ime = false :=
  ⟨rfl, by decide, by decide,
    cpu_handle_interrupts_clears_ime example_addresses (example_cpu 0x10 0x1F) rfl
      (by decide) (by decide)⟩

/-! ## The static counter: scope and initialisation -/

theorem cpu_cycles_in_flight_from (instruction_set : Nat → instruction) (c : cpu) (d j : Nat)
    (hd : d ≤ 255) (hdur : (instruction_set (bus_read c.bus c.pc)).duration = d) :
    ∀ n, j + n < d → cpu_cycles instruction_set n (j, c) = (j + n, c) := by
  intro n
  induction n with
  | zero => intro _; rfl
  | succ n ih =>
    intro hn
    rw [cpu_cycles_succ, ih (by omega)]
    have hmod : (j + n + 1) % 256 = j + n + 1 := Nat.mod_eq_of_lt (by omega)
    rw [cpu_cycle_in_flight instruction_set (j + n) c (by rw [hdur, hmod]; omega), hmod]
    rfl

theorem cpu_cycles_complete_from (instruction_set : Nat → instruction) (c : cpu)
    (i : instruction) (hi : instruction_set (bus_read c.bus c.pc) = i) (j : Nat)
    (hj : j < i.duration) (hd : i.duration ≤ 255) :
    ∃ operand : Nat,
      cpu_cycles instruction_set (i.duration - j) (j, c) =
        (0, if i.update_pc = true then
            { i.instruction c operand with
              pc := ((i.instruction c operand).pc + i.length) % 65536 }
          else i.instruction c operand) := by
  obtain ⟨n, hn⟩ : ∃ n, i.duration - j = n + 1 := ⟨i.duration - j - 1, by omega⟩
  have hfire : i.duration ≤ (j + n + 1) % 256 := by
    rw [Nat.mod_eq_of_lt (by omega)]
    omega
  rw [hn, cpu_cycles_succ,
    cpu_cycles_in_flight_from instruction_set c i.duration j hd (by rw [hi]) n (by omega)]
  exact cpu_cycle_complete_some instruction_set (j + n) c i hi hfire

theorem cpu_cycles_complete_from_decoded (instruction_set : Nat → instruction) (c : cpu)
    (i : instruction) (hi : instruction_set (bus_read c.bus c.pc) = i) (j : Nat)
    (hj : j < i.duration) (hd : i.duration ≤ 255) :
    cpu_cycles instruction_set (i.duration - j) (j, c) =
      (0, if i.update_pc = true then
          { i.instruction c (decoded_operand i c) with
            pc := ((i.instruction c (decoded_operand i c)).pc + i.length) % 65536 }
        else i.instruction c (decoded_operand i c)) := by
  obtain ⟨n, hn⟩ : ∃ n, i.duration - j = n + 1 := ⟨i.duration - j - 1, by omega⟩
  have hfire : i.duration ≤ (j + n + 1) % 256 := by
    rw [Nat.mod_eq_of_lt (by omega)]
    omega
  rw [hn, cpu_cycles_succ,
    cpu_cycles_in_flight_from instruction_set c i.duration j hd (by rw [hi]) n (by omega)]
  exact cpu_cycle_complete_decoded instruction_set (j + n) c i hi hfire

/-- C13 (scope of the cycle counter), as the code behaves: the counter of
`cpu_cycle` is one function-local static shared by every CPU instance. Let the
counter be `k`, let the opcode at the pc of instance `a` have a duration above
`k + 1` and the opcode at the pc of instance `b` a duration `d` with
`k + 1 < d ≤ 255`. A call on `a` returns the record of `a` unchanged and the
counter `k + 1`. Instance `b` alone needs exactly `d - k` calls before its
effect fires (the first `d - k - 1` return its record untouched); after the
call on `a` it needs exactly `d - k - 1` (the first `d - k - 2` return its
record untouched): the call on `a` took one call off what `b` needs. -/
theorem cpu_cycle_counter_shared (instruction_set : Nat → instruction) (a b : cpu)
    (ia ib : instruction)
    (ha : instruction_set (bus_read a.bus a.pc) = ia)
    (hb : instruction_set (bus_read b.bus b.pc) = ib)
    (k : Nat) (hka : k + 1 < ia.duration) (hkb : k + 1 < ib.duration)
    (hd : ib.duration ≤ 255) :
    cpu_cycle instruction_set k a = (k + 1, a) ∧
    ((∀ n, n < ib.duration - k → cpu_cycles instruction_set n (k, b) = (k + n, b)) ∧
      cpu_cycles instruction_set (ib.duration - k) (k, b) =
        (0, if ib.update_pc = true then
            { ib.instruction b (decoded_operand ib b) with
              pc := ((ib.instruction b (decoded_operand ib b)).pc + ib.length) % 65536 }
          else ib.instruction b (decoded_operand ib b))) ∧
    ((∀ n, n < ib.duration - k - 1 →
        cpu_cycles instruction_set n ((cpu_cycle instruction_set k a).1, b)
          = (k + 1 + n, b)) ∧
      cpu_cycles instruction_set (ib.duration - k - 1)
          ((cpu_cycle instruction_set k a).1, b) =
        (0, if ib.update_pc = true then
            { ib.instruction b (decoded_operand ib b) with
              pc := ((ib.instruction b (decoded_operand ib b)).pc + ib.length) % 65536 }
          else ib.instruction b (decoded_operand ib b))) := by
  have hmod : (k + 1) % 256 = k + 1 := Nat.mod_eq_of_lt (by omega)
  have hstep : cpu_cycle instruction_set k a = (k + 1, a) := by
    rw [cpu_cycle_in_flight instruction_set k a (by rw [ha, hmod]; exact hka), hmod]
  refine ⟨hstep, ⟨fun n hn => ?_, ?_⟩, ⟨fun n hn => ?_, ?_⟩⟩
  · exact cpu_cycles_in_flight_from instruction_set b ib.duration k hd (by rw [hb]) n
      (by omega)
  · exact cpu_cycles_complete_from_decoded instruction_set b ib hb k (by omega) hd
  · rw [hstep]
    exact cpu_cycles_in_flight_from instruction_set b ib.duration (k + 1) hd (by rw [hb]) n
      (by omega)
  · rw [hstep]
    have h := cpu_cycles_complete_from_decoded instruction_set b ib hb (k + 1) hkb hd
    rwa [show ib.duration - (k + 1) = ib.duration - k - 1 by omega] at h

/-- Witness of C13 as amended: instance `a` at the 8-tick opcode of `0x3000`,
instance `b` at the 12-tick opcode of `0x1234`, counter 0: `b` alone fires at
its 12th call, after one call on `a` at its 11th. -/
theorem cpu_cycle_counter_shared_witness :
    example_instruction_set (bus_read ({ example_cpu 0 0 with pc := 0x3000 } : cpu).bus
        ({ example_cpu 0 0 with pc := 0x3000 } : cpu).pc) = example_load_byte ∧
    example_instruction_set (bus_read (example_cpu 0 0).bus (example_cpu 0 0).pc)
      = example_load_sp ∧
    0 + 1 < example_load_byte.duration ∧ 0 + 1 < example_load_sp.duration ∧
    example_load_sp.duration ≤ 255 ∧
    (cpu_cycle example_instruction_set 0 { example_cpu 0 0 with pc := 0x3000 }
        = (0 + 1, { example_cpu 0 0 with pc := 0x3000 }) ∧
      ((∀ n, n < example_load_sp.duration - 0 →
          cpu_cycles example_instruction_set n (0, example_cpu 0 0)
            = (0 + n, example_cpu 0 0)) ∧
        cpu_cycles example_instruction_set (example_load_sp.duration - 0)
            (0, example_cpu 0 0) =
          (0, if example_load_sp.update_pc = true then
              { example_load_sp.instruction (example_cpu 0 0)
                  (decoded_operand example_load_sp (example_cpu 0 0)) with
                pc := ((example_load_sp.instruction (example_cpu 0 0)
                    (decoded_operand example_load_sp (example_cpu 0 0))).pc
                  + example_load_sp.length) % 65536 }
            else example_load_sp.instruction (example_cpu 0 0)
              (decoded_operand example_load_sp (example_cpu 0 0)))) ∧
      ((∀ n, n < example_load_sp.duration - 0 - 1 →
          cpu_cycles example_instruction_set n
              ((cpu_cycle example_instruction_set 0
                { example_cpu 0 0 with pc := 0x3000 }).1, example_cpu 0 0)
            = (0 + 1 + n, example_cpu 0 0)) ∧
        cpu_cycles example_instruction_set (example_load_sp.duration - 0 - 1)
            ((cpu_cycle example_instruction_set 0
              { example_cpu 0 0 with pc := 0x3000 }).1, example_cpu 0 0) =
          (0, if example_load_sp.update_pc = true then
              { example_load_sp.instruction (example_cpu 0 0)
                  (decoded_operand example_load_sp (example_cpu 0 0)) with
                pc := ((example_load_sp.instruction (example_cpu 0 0)
                    (decoded_operand example_load_sp (example_cpu 0 0))).pc
                  + example_load_sp.length) % 65536 }
            else example_load_sp.instruction (example_cpu 0 0)
              (decoded_operand example_load_sp (example_cpu 0 0))))) ∧
    example_load_sp.duration - 0 = 12 ∧ example_load_sp.duration - 0 - 1 = 11 :=
  ⟨rfl, rfl, by decide, by decide, by decide,
    cpu_cycle_counter_shared example_instruction_set { example_cpu 0 0 with pc := 0x3000 }
      (example_cpu 0 0) example_load_byte example_load_sp rfl rfl 0
      (by decide) (by decide) (by decide),
    by decide, by decide⟩

/-- C13 as stated fails: with instance `b` at a 12-tick opcode and counter 0,
eleven calls on `b` alone leave it in flight (counter 11, `sp` still `0x8000`);
after a single call on another instance `a`, the same eleven calls on `b` fire
its effect (`sp` becomes `0xFFFE`, counter back to 0): the call on `a` changed
the number of calls `b` needs from 12 to 11. -/
theorem cpu_cycle_counter_per_instance_refuted :
    (cpu_cycles example_instruction_set 11 (0, example_cpu 0 0)).1 = 11 ∧
    (cpu_cycles example_instruction_set 11 (0, example_cpu 0 0)).2.sp = 0x8000 ∧
    (cpu_cycle example_instruction_set 0 { example_cpu 0 0 with pc := 0x3000 }).1 = 1 ∧
    (cpu_cycles example_instruction_set 11
      ((cpu_cycle example_instruction_set 0 { example_cpu 0 0 with pc := 0x3000 }).1,
        example_cpu 0 0)).1 = 0 ∧
    (cpu_cycles example_instruction_set 11
      ((cpu_cycle example_instruction_set 0 { example_cpu 0 0 with pc := 0x3000 }).1,
        example_cpu 0 0)).2.sp = 0xFFFE := by
  decide

/-- C14 (initialisation), as the code behaves: whatever the cpu record held
and whatever `cpu_cycle` calls came before, after `cpu_initialize` every field
of the record (registers, pc, sp, ime, halted) is zero and the interrupt
controller and the bus are the ones passed in; the counter of `cpu_cycle` is
not a field of the record and keeps the value the earlier calls left. -/
theorem cpu_initialize_zeroes_record (s : Nat × cpu) (ic : interrupt_controller) (b : bus) :
    (∀ r, (cpu_initialize_program s ic b).2.registers r = 0) ∧
    (cpu_initialize_program s ic b).2.pc = 0 ∧
    (cpu_initialize_program s ic b).2.sp = 0 ∧
    (cpu_initialize_program s ic b).2.ime = false ∧
    (cpu_initialize_program s ic b).2.halted = false ∧
    (cpu_initialize_program s ic b).2.interrupt_controller = ic ∧
    (cpu_initialize_program s ic b).2.bus = b ∧
    (cpu_initialize_program s ic b).1 = s.1 :=
  ⟨fun _ => rfl, rfl, rfl, rfl, rfl, rfl, rfl, rfl⟩

/-- C14 as stated fails: after eleven `cpu_cycle` calls on a 12-tick opcode the
counter is 11, and `cpu_initialize` leaves it at 11, not 0; the first
`cpu_cycle` call on the freshly initialised CPU then already fires the 4-tick
opcode `0xFB` at address 0 (`ime` becomes true, pc becomes 1). -/
theorem cpu_initialize_counter_refuted :
    (cpu_cycles example_instruction_set_ei 11 (0, example_cpu 0 0)).1 = 11 ∧
    (cpu_initialize_program (cpu_cycles example_instruction_set_ei 11 (0, example_cpu 0 0))
      { interrupt_flags := 0x00, interrupt_enable := 0x01 } example_boot_bus).1 = 11 ∧
    (example_instruction_set_ei (bus_read example_boot_bus 0)).duration = 4 ∧
    (cpu_cycle example_instruction_set_ei
      (cpu_initialize_program (cpu_cycles example_instruction_set_ei 11 (0, example_cpu 0 0))
        { interrupt_flags := 0x00, interrupt_enable := 0x01 } example_boot_bus).1
      (cpu_initialize_program (cpu_cycles example_instruction_set_ei 11 (0, example_cpu 0 0))
        { interrupt_flags := 0x00, interrupt_enable := 0x01 } example_boot_bus).2).2.ime
      = true ∧
    (cpu_cycle example_instruction_set_ei
      (cpu_initialize_program (cpu_cycles example_instruction_set_ei 11 (0, example_cpu 0 0))
        { interrupt_flags := 0x00, interrupt_enable := 0x01 } example_boot_bus).1
      (cpu_initialize_program (cpu_cycles example_instruction_set_ei 11 (0, example_cpu 0 0))
        { interrupt_flags := 0x00, interrupt_enable := 0x01 } example_boot_bus).2).2.pc
      = 1 := by
  decide

/-! ## Timing under the scheduler loop -/

/-- C15 (timing invariant under the scheduler loop), evaluated where the code
departs from it. From power-on (zeroed CPU, V-blank enabled), 14 scheduler
ticks complete the 4-tick opcode `0xFB` and leave the 12-tick opcode at
`0x0001` in flight with counter 10. A peripheral then requests V-blank; the
next tick dispatches to the service address `0x0040` with the counter at 11.
The opcode there has duration 8, and the very next `cpu_cycle` call, the first
one to fetch it, fires its effect (register 0 becomes `0x80`, pc `0x0042`,
counter 0). -/
theorem scheduler_dispatch_in_flight_breaks_timing :
    example_power_on.1 = 0 ∧
    example_in_flight.1 = 10 ∧ example_in_flight.2.pc = 0x0001 ∧
    example_in_flight.2.ime = true ∧
    (example_instruction_set_ei
      (bus_read example_in_flight.2.bus example_in_flight.2.pc)).duration = 12 ∧
    example_dispatched.1 = 11 ∧ example_dispatched.2.pc = 0x0040 ∧
    (example_instruction_set_ei
      (bus_read example_dispatched.2.bus example_dispatched.2.pc)).duration = 8 ∧
    example_dispatched.2.registers 0 = 0x00 ∧
    (cpu_cycle example_instruction_set_ei example_dispatched.1 example_dispatched.2).1 = 0 ∧
    (cpu_cycle example_instruction_set_ei example_dispatched.1 example_dispatched.2).2.registers 0
      = 0x80 ∧
    (cpu_cycle example_instruction_set_ei example_dispatched.1 example_dispatched.2).2.pc
      = 0x0042 := by
  decide

/-! ## Early return, idempotence and frame of the dispatch -/

/-- C16 (empty-register early return): with `ime` set and `interrupt_flags = 0`
or `interrupt_enable = 0`, `cpu_handle_interrupts` returns the state it was
given: pc, sp, ime, halted, registers, bus contents, `interrupt_flags` and
`interrupt_enable` are all unchanged. -/
theorem cpu_handle_interrupts_empty_registers (A : interrupt_addresses) (c : cpu)
    (hime : c.ime = true)
    (hzero : c.interrupt_controller.interrupt_flags = 0
      ∨ c.interrupt_controller.interrupt_enable = 0) :
    cpu_handle_interrupts A c = c := by
  unfold cpu_handle_interrupts
  rw [if_pos hime]
  rcases hzero with h | h
  · simp only [h, true_or, if_true]
  · simp only [h, or_true, if_true]

/-- Witness of C16: the example CPU with nothing requested and every source
enabled. -/
theorem cpu_handle_interrupts_empty_registers_witness :
    (example_cpu 0x00 0x1F).ime = true ∧
    ((example_cpu 0x00 0x1F).interrupt_controller.interrupt_flags = 0
      ∨ (example_cpu 0x00 0x1F).interrupt_controller.interrupt_enable = 0) ∧
    cpu_handle_interrupts example_addresses (example_cpu 0x00 0x1F) = example_cpu 0x00 0x1F :=
  ⟨rfl, Or.inl rfl,
    cpu_handle_interrupts_empty_registers example_addresses (example_cpu 0x00 0x1F) rfl
      (Or.inl rfl)⟩

/-- C17 (idempotence): for every state, applying `cpu_handle_interrupts` twice
in a row yields exactly the state of applying it once. -/
theorem cpu_handle_interrupts_idempotent (A : interrupt_addresses) (c : cpu) :
    cpu_handle_interrupts A (cpu_handle_interrupts A c) = cpu_handle_interrupts A c := by
  by_cases hidle : c.ime = false ∨ c.interrupt_controller.interrupt_flags = 0
      ∨ c.interrupt_controller.interrupt_enable = 0
  · rw [cpu_handle_interrupts_idle A c hidle, cpu_handle_interrupts_idle A c hidle]
  · have hime : c.ime = true := by
      cases h : c.ime
      · exact absurd (Or.inl h) hidle
      · rfl
    have hif : c.interrupt_controller.interrupt_flags ≠ 0 :=
      fun h => hidle (Or.inr (Or.inl h))
    have hie : c.interrupt_controller.interrupt_enable ≠ 0 :=
      fun h => hidle (Or.inr (Or.inr h))
    apply cpu_handle_interrupts_idle
    left
    rw [cpu_handle_interrupts_dispatch A c hime hif hie]

/-- C18 (frame of a dispatch): for every state, `cpu_handle_interrupts` keeps
the general/flag registers and `interrupt_enable`, and keeps every bus cell
other than the two at addresses `sp-1` and `sp-2` (taken modulo `2^16`), so
that a read of any other address returns the pre-call byte. -/
theorem cpu_handle_interrupts_frame (A : interrupt_addresses) (c : cpu) :
    (cpu_handle_interrupts A c).registers = c.registers ∧
    (cpu_handle_interrupts A c).interrupt_controller.interrupt_enable
      = c.interrupt_controller.interrupt_enable ∧
    (∀ a : Nat, a ≠ uint16 (c.sp - 1) → a ≠ uint16 (c.sp - 2) →
      (cpu_handle_interrupts A c).bus.memory a = c.bus.memory a) ∧
    (∀ address : Int, uint16 address ≠ uint16 (c.sp - 1) →
      uint16 address ≠ uint16 (c.sp - 2) →
      bus_read (cpu_handle_interrupts A c).bus address = bus_read c.bus address) := by
  by_cases hidle : c.ime = false ∨ c.interrupt_controller.interrupt_flags = 0
      ∨ c.interrupt_controller.interrupt_enable = 0
  · rw [cpu_handle_interrupts_idle A c hidle]
    exact ⟨rfl, rfl, fun _ _ _ => rfl, fun _ _ _ => rfl⟩
  · have hime : c.ime = true := by
      cases h : c.ime
      · exact absurd (Or.inl h) hidle
      · rfl
    have hif : c.interrupt_controller.interrupt_flags ≠ 0 :=
      fun h => hidle (Or.inr (Or.inl h))
    have hie : c.interrupt_controller.interrupt_enable ≠ 0 :=
      fun h => hidle (Or.inr (Or.inr h))
    rw [cpu_handle_interrupts_dispatch A c hime hif hie]
    refine ⟨rfl, rfl, fun a h1 h2 => ?_, fun address h1 h2 => ?_⟩
    · simp only [bus_write, if_neg h1, if_neg h2]
    · simp only [bus_read, bus_write, if_neg h1, if_neg h2]

/-- Witness of C18 on the example CPU with V-blank requested and enabled: the
dispatch from `sp = 0x8000` keeps the byte `0x31` at `0x1234`, the registers
and `interrupt_enable`. -/
theorem cpu_handle_interrupts_frame_witness :
    uint16 0x1234 ≠ uint16 ((example_cpu 0x01 0x01).sp - 1) ∧
    uint16 0x1234 ≠ uint16 ((example_cpu 0x01 0x01).sp - 2) ∧
    bus_read (cpu_handle_interrupts example_addresses (example_cpu 0x01 0x01)).bus 0x1234
      = bus_read (example_cpu 0x01 0x01).bus 0x1234 ∧
    bus_read (cpu_handle_interrupts example_addresses (example_cpu 0x01 0x01)).bus 0x1234
      = 0x31 :=
  ⟨by decide, by decide,
    (cpu_handle_interrupts_frame example_addresses (example_cpu 0x01 0x01)).2.2.2 0x1234
      (by decide) (by decide),
    by decide⟩

/-! ## 16-bit addresses -/

theorem bus_read_congr (b : bus) (a1 a2 : Int) (h : uint16 a1 = uint16 a2) :
    bus_read b a1 = bus_read b a2 := by
  unfold bus_read
  rw [h]

/-- C19 (16-bit wrap-around of addresses): a dispatch from `sp = 0x0000` leaves
the high byte of pc at `0xFFFF`, the low byte at `0xFFFE` and `sp = 0xFFFE`; a
dispatch from `sp = 0x0001` leaves them at `0x0000` and `0xFFFF`, and
`sp = 0xFFFF`; a completing `cpu_cycle` at `pc = 0xFFFF` on a length-3 opcode
passes `(byte at 0x0001 << 8) | (byte at 0x0000)` to the effect. -/
theorem address_wrap_around (A : interrupt_addresses) (instruction_set : Nat → instruction) :
    (∀ c : cpu, c.ime = true → c.interrupt_controller.interrupt_flags ≠ 0 →
      c.interrupt_controller.interrupt_enable ≠ 0 → c.sp = 0x0000 →
      bus_read (cpu_handle_interrupts A c).bus 0xFFFF = c.pc / 256 % 256 ∧
      bus_read (cpu_handle_interrupts A c).bus 0xFFFE = c.pc % 256 ∧
      (cpu_handle_interrupts A c).sp = 0xFFFE) ∧
    (∀ c : cpu, c.ime = true → c.interrupt_controller.interrupt_flags ≠ 0 →
      c.interrupt_controller.interrupt_enable ≠ 0 → c.sp = 0x0001 →
      bus_read (cpu_handle_interrupts A c).bus 0x0000 = c.pc / 256 % 256 ∧
      bus_read (cpu_handle_interrupts A c).bus 0xFFFF = c.pc % 256 ∧
      (cpu_handle_interrupts A c).sp = 0xFFFF) ∧
    (∀ (k : Nat) (c : cpu) (i : instruction),
      instruction_set (bus_read c.bus c.pc) = i → i.duration ≤ (k + 1) % 256 →
      c.pc = 0xFFFF → i.length = 3 →
      (cpu_cycle instruction_set k c).2 =
        if i.update_pc = true then
          { i.instruction c ((bus_read c.bus 0x0001 <<< 8) ||| bus_read c.bus 0x0000) with
            pc := ((i.instruction c
                ((bus_read c.bus 0x0001 <<< 8) ||| bus_read c.bus 0x0000)).pc
              + i.length) % 65536 }
        else i.instruction c ((bus_read c.bus 0x0001 <<< 8) ||| bus_read c.bus 0x0000)) := by
  refine ⟨fun c hime hif hie hsp => ?_, fun c hime hif hie hsp => ?_,
    fun k c i hi hfire hpc hlen => ?_⟩
  · obtain ⟨h1, h2, h3⟩ := cpu_handle_interrupts_stack A c hime hif hie
    rw [hsp] at h1 h2 h3
    refine ⟨(bus_read_congr _ _ _ (by decide)).trans h1,
      (bus_read_congr _ _ _ (by decide)).trans h2, ?_⟩
    omega
  · obtain ⟨h1, h2, h3⟩ := cpu_handle_interrupts_stack A c hime hif hie
    rw [hsp] at h1 h2 h3
    refine ⟨(bus_read_congr _ _ _ (by decide)).trans h1,
      (bus_read_congr _ _ _ (by decide)).trans h2, ?_⟩
    omega
  · have hlow : bus_read c.bus (c.pc + 1) = bus_read c.bus 0x0000 :=
      bus_read_congr _ _ _ (by rw [hpc]; decide)
    have hhigh : bus_read c.bus (c.pc + 2) = bus_read c.bus 0x0001 :=
      bus_read_congr _ _ _ (by rw [hpc]; decide)
    have hlt := MAKE_SHORT_lt _ _ (bus_read_lt c.bus 0x0001) (bus_read_lt c.bus 0x0000)
    have hop : (bus_read c.bus 0x0001 <<< 8) ||| bus_read c.bus 0x0000 =
        uint16 (MAKE_SHORT (bus_read c.bus (c.pc + 2)) (bus_read c.bus (c.pc + 1))) := by
      rw [hlow, hhigh, uint16_natCast, Nat.mod_eq_of_lt hlt]
      rfl
    rw [cpu_cycle_complete instruction_set k c i hi hfire
      ((bus_read c.bus 0x0001 <<< 8) ||| bus_read c.bus 0x0000)
      (by rw [hlen]; exact hop)]

/-- Witness of C19: the example CPU with `sp = 0x0000` and V-blank requested
and enabled pushes `pc = 0x1234` to `0xFFFF` and `0xFFFE`. -/
theorem address_wrap_around_witness :
    ({ example_cpu 0x01 0x01 with sp := 0x0000 } : cpu).ime = true ∧
    ({ example_cpu 0x01 0x01 with sp := 0x0000 } : cpu).interrupt_controller.interrupt_flags
      ≠ 0 ∧
    ({ example_cpu 0x01 0x01 with sp := 0x0000 } : cpu).interrupt_controller.interrupt_enable
      ≠ 0 ∧
    ({ example_cpu 0x01 0x01 with sp := 0x0000 } : cpu).sp = 0x0000 ∧
    (bus_read (cpu_handle_interrupts example_addresses
        { example_cpu 0x01 0x01 with sp := 0x0000 }).bus 0xFFFF
        = ({ example_cpu 0x01 0x01 with sp := 0x0000 } : cpu).pc / 256 % 256 ∧
      bus_read (cpu_handle_interrupts example_addresses
        { example_cpu 0x01 0x01 with sp := 0x0000 }).bus 0xFFFE
        = ({ example_cpu 0x01 0x01 with sp := 0x0000 } : cpu).pc % 256 ∧
      (cpu_handle_interrupts example_addresses
        { example_cpu 0x01 0x01 with sp := 0x0000 }).sp = 0xFFFE) ∧
    bus_read (cpu_handle_interrupts example_addresses
      { example_cpu 0x01 0x01 with sp := 0x0000 }).bus 0xFFFF = 0x12 :=
  ⟨rfl, by decide, by decide, rfl,
    (address_wrap_around example_addresses example_instruction_set).1
      { example_cpu 0x01 0x01 with sp := 0x0000 } rfl (by decide) (by decide) rfl,
    by decide⟩

/-! ## The completion test -/

theorem cpu_cycle_counter_le (instruction_set : Nat → instruction) (k : Nat) (c : cpu)
    (hdur : (instruction_set (bus_read c.bus c.pc)).duration ≤ 255) :
    (cpu_cycle instruction_set k c).1 ≤ 254 := by
  by_cases hfire : (instruction_set (bus_read c.bus c.pc)).duration ≤ (k + 1) % 256
  · rw [cpu_cycle_complete_decoded instruction_set k c _ rfl hfire]
    exact Nat.zero_le _
  · rw [cpu_cycle_in_flight instruction_set k c (by omega)]
    show (k + 1) % 256 ≤ 254
    omega

theorem counter_after_le (instruction_set : Nat → instruction)
    (hdur : ∀ opcode, (instruction_set opcode).duration ≤ 255) :
    ∀ (cs : List cpu) (k : Nat), k ≤ 254 → counter_after instruction_set cs k ≤ 254 := by
  intro cs
  induction cs with
  | nil => intro k hk; exact hk
  | cons c cs ih =>
    intro k _
    exact ih _ (cpu_cycle_counter_le instruction_set k c (hdur _))

/-- C20 (completion test is `counter >= duration`, not equality): with `i` the
descriptor of the opcode at pc, for every value `k` of the counter a
`cpu_cycle` call fires the effect when `(k + 1) mod 256 ≥ i.duration` (the
effect is applied to the decoded operand and the counter becomes 0) and
otherwise returns the record untouched with the counter `(k + 1) mod 256`.
Hence, in every state a program run produces (the counter after any sequence
of `cpu_cycle` calls from 0, on arbitrary records, the durations of the table
being at most 255): an opcode of duration 0 or 1 fires on the very call that
fetches it, and a call entered with a counter that is already at least
`duration - 1` fires at once and puts the counter back to 0. -/
theorem cpu_cycle_completion_test (instruction_set : Nat → instruction) (c : cpu)
    (i : instruction) (hi : instruction_set (bus_read c.bus c.pc) = i) :
    (∀ k : Nat,
      (i.duration ≤ (k + 1) % 256 →
        cpu_cycle instruction_set k c =
          (0, if i.update_pc = true then
              { i.instruction c (decoded_operand i c) with
                pc := ((i.instruction c (decoded_operand i c)).pc + i.length) % 65536 }
            else i.instruction c (decoded_operand i c))) ∧
      (¬ i.duration ≤ (k + 1) % 256 →
        cpu_cycle instruction_set k c = ((k + 1) % 256, c))) ∧
    ((∀ opcode, (instruction_set opcode).duration ≤ 255) →
      ∀ cs : List cpu,
        (i.duration = 0 ∨ i.duration = 1 →
          cpu_cycle instruction_set (counter_after instruction_set cs 0) c =
            (0, if i.update_pc = true then
                { i.instruction c (decoded_operand i c) with
                  pc := ((i.instruction c (decoded_operand i c)).pc + i.length) % 65536 }
              else i.instruction c (decoded_operand i c))) ∧
        (i.duration - 1 ≤ counter_after instruction_set cs 0 →
          cpu_cycle instruction_set (counter_after instruction_set cs 0) c =
            (0, if i.update_pc = true then
                { i.instruction c (decoded_operand i c) with
                  pc := ((i.instruction c (decoded_operand i c)).pc + i.length) % 65536 }
              else i.instruction c (decoded_operand i c)))) := by
  have hfire := fun k => cpu_cycle_complete_decoded instruction_set k c i hi
  refine ⟨fun k => ⟨hfire k, fun hnot => ?_⟩, fun hdur cs => ?_⟩
  · exact cpu_cycle_in_flight instruction_set k c (by rw [hi]; omega)
  · have hle := counter_after_le instruction_set hdur cs 0 (by omega)
    have hmod : (counter_after instruction_set cs 0 + 1) % 256
        = counter_after instruction_set cs 0 + 1 := Nat.mod_eq_of_lt (by omega)
    refine ⟨fun h01 => hfire _ ?_, fun hge => hfire _ ?_⟩
    · rw [hmod]
      omega
    · rw [hmod]
      omega

/-- Witness of C20 on the example machine: eleven calls on the 12-tick opcode
at `0x1234` leave the counter at 11; with pc then at `0x3000`, whose opcode has
duration 8, the counter carried in is above `duration - 1` and the next call
fires at once (register 0 becomes `0x80`, the counter 0). -/
theorem cpu_cycle_completion_test_witness :
    example_instruction_set (bus_read ({ example_cpu 0 0 with pc := 0x3000 } : cpu).bus
        ({ example_cpu 0 0 with pc := 0x3000 } : cpu).pc) = example_load_byte ∧
    counter_after example_instruction_set (List.replicate 11 (example_cpu 0 0)) 0 = 11 ∧
    example_load_byte.duration = 8 ∧
    example_load_byte.duration - 1
      < counter_after example_instruction_set (List.replicate 11 (example_cpu 0 0)) 0 ∧
    cpu_cycle example_instruction_set
        (counter_after example_instruction_set (List.replicate 11 (example_cpu 0 0)) 0)
        { example_cpu 0 0 with pc := 0x3000 } =
      (0, if example_load_byte.update_pc = true then
          { example_load_byte.instruction { example_cpu 0 0 with pc := 0x3000 }
              (decoded_operand example_load_byte { example_cpu 0 0 with pc := 0x3000 }) with
            pc := ((example_load_byte.instruction { example_cpu 0 0 with pc := 0x3000 }
                (decoded_operand example_load_byte
                  { example_cpu 0 0 with pc := 0x3000 })).pc
              + example_load_byte.length) % 65536 }
        else example_load_byte.instruction { example_cpu 0 0 with pc := 0x3000 }
          (decoded_operand example_load_byte { example_cpu 0 0 with pc := 0x3000 })) ∧
    (cpu_cycle example_instruction_set
      (counter_after example_instruction_set (List.replicate 11 (example_cpu 0 0)) 0)
      { example_cpu 0 0 with pc := 0x3000 }).2.registers 0 = 0x80 :=
  ⟨rfl, by decide, rfl, by decide,
    ((cpu_cycle_completion_test example_instruction_set { example_cpu 0 0 with pc := 0x3000 }
      example_load_byte rfl).2
      (fun opcode => by unfold example_instruction_set; split_ifs <;> decide)
      (List.replicate 11 (example_cpu 0 0))).2 (by decide),
    by decide⟩

end BagelBoy
